import Mathlib

/-!
Shallow embedding of the core game loop of Space Defenders (`game.py`).

The embedding follows `Game.play` and the entity classes `Player`, `Bullet`
and `Meteoroid` line by line:

* positions are pygame `Rect` fields, i.e. integers;
* `meteoroid_speed` is a Python float that only ever holds small dyadic
  values (4.0, 4.25, ...), so it is modelled exactly by a rational;
* the pygame sprite-group operations `spritecollide` and `groupcollide`
  (with their sequential kill semantics) are modelled on lists kept in
  insertion order, which is the iteration order of pygame groups;
* one iteration of the `while True:` loop of `Game.play` is the function
  `frameStep`, whose result is either `quit` (window close), `gameover`
  (ESC pressed or player struck) or `cont` with the next state.

The number of explosion-animation images `len(game.image_meteoroid)` is a
property of the asset directory and is kept as a parameter `nf`.
-/

/-- Window width constant of `game.py` (`windowwidth = 1280`). -/
def windowwidth : Int := 1280

/-- Window height constant of `game.py` (`windowheight = 720`). -/
def windowheight : Int := 720

/-- `player_speed = 3` from `Game.play`. -/
def player_speed : Int := 3

/-- An axis-aligned pygame rectangle. -/
structure PyRect where
  x : Int
  y : Int
  w : Int
  h : Int
deriving DecidableEq, Repr

/-- pygame's `colliderect`: rectangles overlap with strict inequalities on
all four sides (zero-width touching does not collide). -/
def collideRect (a b : PyRect) : Bool :=
  a.x < b.x + b.w && a.y < b.y + b.h && a.x + a.w > b.x && a.y + a.h > b.y

/-- The sprite `window_left = Window(-96)`: `Rect(-96, 0, 11, windowheight)`. -/
def windowLeftRect : PyRect := ⟨-96, 0, 11, windowheight⟩

/-- The sprite `window_right = Window(windowwidth + 96)`. -/
def windowRightRect : PyRect := ⟨windowwidth + 96, 0, 11, windowheight⟩

/-- Python's `int()` conversion applied by pygame when a float is assigned
to a `Rect` coordinate: truncation toward zero. -/
def pyInt (q : ℚ) : Int := if 0 ≤ q then ⌊q⌋ else ⌈q⌉

/-- A meteoroid: `Rect(windowwidth, y, 38, 33)` plus the explosion counter
`self.state` (0 while alive, ≥ 1 while the explosion animation runs). -/
structure Meteoroid where
  x : Int
  y : Int
  state : Nat
deriving DecidableEq, Repr

/-- The bounding rectangle of a meteoroid (`38 × 33`). -/
def Meteoroid.rect (m : Meteoroid) : PyRect := ⟨m.x, m.y, 38, 33⟩

/-- `Meteoroid.__init__`: spawned at `x = windowwidth` with `state = 0`.
The random vertical position chosen by `Meteoroid.spawn` is a parameter. -/
def Meteoroid.spawnAt (y : Int) : Meteoroid := ⟨windowwidth, y, 0⟩

/-- A bullet: `Rect(x + 140, y + 30, 15, 12)` anchored to the player. -/
structure Bullet where
  x : Int
  y : Int
deriving DecidableEq, Repr

/-- The bounding rectangle of a bullet (`15 × 12`). -/
def Bullet.rect (b : Bullet) : PyRect := ⟨b.x, b.y, 15, 12⟩

/-- `Player.shoot`: `Bullet(self.rect.x, self.rect.y)`, whose constructor
offsets the rectangle by `(+140, +30)`. -/
def mkBullet (px py : Int) : Bullet := ⟨px + 140, py + 30⟩

/-- The player's rectangle: the ship image is scaled to `118 × 75`. -/
def playerRect (px py : Int) : PyRect := ⟨px, py, 118, 75⟩

/-- The four global movement flags `left`, `right`, `up`, `down`. -/
structure MoveFlags where
  left : Bool
  right : Bool
  up : Bool
  down : Bool
deriving DecidableEq, Repr

/-- The flag assignments of the four key branches of `Game.play`, in source
order `K_a`, `K_d`, `K_w`, `K_s`; each taken branch overwrites all four
flags, so the last pressed key in that order wins. -/
def updateFlags (kA kD kW kS : Bool) : MoveFlags :=
  let f : MoveFlags := ⟨false, false, false, false⟩
  let f := if kA then (⟨true, false, false, false⟩ : MoveFlags) else f
  let f := if kD then (⟨false, true, false, false⟩ : MoveFlags) else f
  let f := if kW then (⟨false, false, true, false⟩ : MoveFlags) else f
  let f := if kS then (⟨false, false, false, true⟩ : MoveFlags) else f
  f

/-- Horizontal movement of `Game.play`: the `K_a` branch
(`if x >= 0: x -= player_speed`) followed by the `K_d` branch
(`if x <= windowwidth - 50: x += player_speed`); note the boundary is
checked before the move. -/
def moveX (kA kD : Bool) (x : Int) : Int :=
  let x1 := if kA then (if 0 ≤ x then x - player_speed else x) else x
  if kD then (if x1 ≤ windowwidth - 50 then x1 + player_speed else x1) else x1

/-- Vertical movement of `Game.play`: the `K_w` branch
(`if y >= 0: y -= player_speed`) followed by the `K_s` branch
(`if y <= windowheight - 50: y += player_speed`). -/
def moveY (kW kS : Bool) (y : Int) : Int :=
  let y1 := if kW then (if 0 ≤ y then y - player_speed else y) else y
  if kS then (if y1 ≤ windowheight - 50 then y1 + player_speed else y1) else y1

/-- The `K_SPACE` branch of `Game.play`: a bullet is added and the cooldown
clock reset exactly when `current_time - previous_time > 500`. Returns the
new `previous_time` and bullet list. -/
def shootStep (kSpace : Bool) (now prev : Nat) (px py : Int) (bs : List Bullet) :
    Nat × List Bullet :=
  if kSpace then
    if 500 < now - prev then (now, bs ++ [mkBullet px py]) else (prev, bs)
  else (prev, bs)

/-- One `DIFFICULTY_INCREASE` event of `Game.play`:
`meteoroid_speed += 0.25`; `if meteoroid_timer > 200: meteoroid_timer -= 100`. -/
def difficultyStep (p : ℚ × Nat) : ℚ × Nat :=
  (p.1 + 1 / 4, if 200 < p.2 then p.2 - 100 else p.2)

/-- `n` consecutive `DIFFICULTY_INCREASE` events. -/
def difficultyIter : Nat → ℚ × Nat → ℚ × Nat
  | 0, p => p
  | n + 1, p => difficultyStep (difficultyIter n p)

/-- The difficulty state after `n` escalation fires of a run, starting from
the initial `meteoroid_speed = 4`, `meteoroid_timer = 1500`. -/
def difficultyAfter (n : Nat) : ℚ × Nat := difficultyIter n (4, 1500)

/-- `True` iff some bullet of `bs` overlaps the meteoroid `m`. -/
def bulletHits (m : Meteoroid) (bs : List Bullet) : Bool :=
  bs.any (fun b => collideRect m.rect b.rect)

/-- pygame's `groupcollide(meteoroid_group, bullet_group, False, True)`:
the meteoroids are visited in group (insertion) order; for each, all
bullets still present that overlap it are killed immediately, and the
meteoroid is recorded as hit iff that set was non-empty. Returns the hit
meteoroids in visit order and the surviving bullets. -/
def groupcollideMB : List Meteoroid → List Bullet → List Meteoroid × List Bullet
  | [], bs => ([], bs)
  | m :: ms, bs =>
    let collided := bs.filter (fun b => collideRect m.rect b.rect)
    let rest := groupcollideMB ms (bs.filter (fun b => !collideRect m.rect b.rect))
    (if collided.isEmpty then rest.1 else m :: rest.1, rest.2)

/-- The body of the hit loop of `Game.play` for one hit meteoroid:
`sprite.state += 1`. -/
def explodeM (m : Meteoroid) : Meteoroid := { m with state := m.state + 1 }

/-- Lines 878–883 of `Game.play`: `groupcollide` followed by the loop that,
for every hit meteoroid, increments its state, removes it from the alive
group, appends it to the exploded group and adds 100 to the score. -/
def hitStep (ms : List Meteoroid) (bs : List Bullet) (ex : List Meteoroid)
    (score : Nat) : List Meteoroid × List Bullet × List Meteoroid × Nat :=
  let hb := groupcollideMB ms bs
  (hb.1.foldl List.erase ms, hb.2, ex ++ hb.1.map explodeM,
    score + 100 * hb.1.length)

/-- `Meteoroid.update` for a surviving meteoroid: the state is incremented
exactly when it was positive (`elif self.state > 0: self.state += 1`) and
the rectangle moves left by the float speed (`self.rect.x -= speed`). -/
def Meteoroid.updateOne (speed : ℚ) (m : Meteoroid) : Meteoroid :=
  { m with
    state := if 0 < m.state then m.state + 1 else m.state,
    x := pyInt ((m.x : ℚ) - speed) }

/-- A meteoroid group's `update(speed)` call: every member whose state has
reached the last animation frame (`self.state + 1 == len(game.image_meteoroid)`)
kills itself; every other member is updated by `Meteoroid.updateOne`.
`nf` is `len(game.image_meteoroid)`. -/
def meteoroidGroupUpdate (nf : Nat) (speed : ℚ) (ms : List Meteoroid) :
    List Meteoroid :=
  (ms.filter (fun m => m.state + 1 != nf)).map (Meteoroid.updateOne speed)

/-- `bullet_group.update(speed)`: every bullet moves right by `speed`. -/
def bulletGroupUpdate (speed : Int) (bs : List Bullet) : List Bullet :=
  bs.map (fun b => { b with x := b.x + speed })

/-- The mutable state of one run of `Game.play` at the top of the loop. -/
structure GState where
  score : Nat
  px : Int
  py : Int
  prevTime : Nat
  meteoroid_speed : ℚ
  meteoroid_timer : Nat
  alive : List Meteoroid
  exploded : List Meteoroid
  bullets : List Bullet
deriving DecidableEq, Repr

/-- The external inputs consumed by one loop iteration: the
`METEOROID_TIMER` events (one vertical position each), the number of
`DIFFICULTY_INCREASE` events, the quit event, the polled key states and
the current value of `pygame.time.get_ticks()`. -/
structure FrameInput where
  spawnYs : List Int
  diffFires : Nat
  quitEvent : Bool
  keyA : Bool
  keyD : Bool
  keyW : Bool
  keyS : Bool
  keySpace : Bool
  keyEsc : Bool
  now : Nat
deriving DecidableEq, Repr

/-- The part of a loop iteration before the ESC check: survival point,
event handling (spawns and difficulty), movement and shooting. -/
def stage1 (g : GState) (inp : FrameInput) : GState :=
  let sd := difficultyIter inp.diffFires (g.meteoroid_speed, g.meteoroid_timer)
  let px := moveX inp.keyA inp.keyD g.px
  let py := moveY inp.keyW inp.keyS g.py
  let sb := shootStep inp.keySpace inp.now g.prevTime px py g.bullets
  { score := g.score + 1
    px := px
    py := py
    prevTime := sb.1
    meteoroid_speed := sd.1
    meteoroid_timer := sd.2
    alive := g.alive ++ inp.spawnYs.map Meteoroid.spawnAt
    exploded := g.exploded
    bullets := sb.2 }

/-- `spritecollide(player, meteoroid_group, True)` is non-empty: some alive
meteoroid overlaps the player. -/
def playerHit (g : GState) : Bool :=
  g.alive.any (fun m => collideRect (playerRect g.px g.py) m.rect)

/-- The part of a loop iteration after the ESC and player-collision checks:
bullet hits, boundary pruning at the two window sentinels, and the three
group `update` calls (`meteoroid_group`, `meteoroid_group_exploded`,
`bullet_group.update(5)`). -/
def stage2 (nf : Nat) (g : GState) : GState :=
  let h := hitStep g.alive g.bullets g.exploded g.score
  let bullets := h.2.1.filter (fun b => !collideRect windowRightRect b.rect)
  let alive := h.1.filter (fun m => !collideRect windowLeftRect m.rect)
  { g with
    score := h.2.2.2
    alive := meteoroidGroupUpdate nf g.meteoroid_speed alive
    exploded := meteoroidGroupUpdate nf g.meteoroid_speed h.2.2.1
    bullets := bulletGroupUpdate 5 bullets }

/-- Result of one loop iteration: window close, game over with the score
handed to `menu.gameover`, or the next state. -/
inductive FrameResult where
  | quit : FrameResult
  | gameover : Nat → FrameResult
  | cont : GState → FrameResult
deriving DecidableEq, Repr

/-- One iteration of the `while True:` loop of `Game.play`. A
`pygame.QUIT` event terminates the process; ESC hands the current score to
`menu.gameover` after movement and shooting but before the collision
phase; a player-meteoroid overlap does the same; otherwise the frame
completes with `stage2`. -/
def frameStep (nf : Nat) (g : GState) (inp : FrameInput) : FrameResult :=
  if inp.quitEvent then .quit
  else
    let g1 := stage1 g inp
    if inp.keyEsc then .gameover g1.score
    else if playerHit g1 then .gameover g1.score
    else .cont (stage2 nf g1)

/-- The number of meteoroids hit (transitioned into the exploded group)
during a frame. -/
def frameHits (g : GState) (inp : FrameInput) : Nat :=
  (groupcollideMB (stage1 g inp).alive (stage1 g inp).bullets).1.length

/-- The state at the top of the first loop iteration: `score = 0`, player
rectangle at `(100, windowheight // 2)`, `meteoroid_speed = 4`,
`meteoroid_timer = 1500`, empty groups. `t0` is the initial
`previous_time = pygame.time.get_ticks()`. -/
def initState (t0 : Nat) : GState :=
  { score := 0
    px := 100
    py := 360
    prevTime := t0
    meteoroid_speed := 4
    meteoroid_timer := 1500
    alive := []
    exploded := []
    bullets := [] }

/-- The collection invariant: alive meteoroids carry `state = 0`, exploded
meteoroids carry `state ≥ 1`. -/
def stateInv (g : GState) : Prop :=
  (∀ m ∈ g.alive, m.state = 0) ∧ (∀ m ∈ g.exploded, 1 ≤ m.state)

/-- The player-position invariant actually maintained by the code: each
coordinate can overshoot its nominal bound by at most one `player_speed`
step. -/
def posInv (g : GState) : Prop :=
  -3 ≤ g.px ∧ g.px ≤ 1233 ∧ -3 ≤ g.py ∧ g.py ≤ 673

/-! ## Helper lemmas -/

/-- Moving left or right keeps the x coordinate at least `-3`. -/
theorem moveX_lb (kA kD : Bool) {x : Int} (h : -3 ≤ x) : -3 ≤ moveX kA kD x := by
  cases kA <;> cases kD <;>
    (simp only [moveX, player_speed, windowwidth]; split_ifs <;> omega)

/-- Moving left or right keeps the x coordinate at most `1233`. -/
theorem moveX_ub (kA kD : Bool) {x : Int} (h : x ≤ 1233) : moveX kA kD x ≤ 1233 := by
  cases kA <;> cases kD <;>
    (simp only [moveX, player_speed, windowwidth]; split_ifs <;> omega)

/-- Moving up or down keeps the y coordinate at least `-3`. -/
theorem moveY_lb (kW kS : Bool) {y : Int} (h : -3 ≤ y) : -3 ≤ moveY kW kS y := by
  cases kW <;> cases kS <;>
    (simp only [moveY, player_speed, windowheight]; split_ifs <;> omega)

/-- Moving up or down keeps the y coordinate at most `673`. -/
theorem moveY_ub (kW kS : Bool) {y : Int} (h : y ≤ 673) : moveY kW kS y ≤ 673 := by
  cases kW <;> cases kS <;>
    (simp only [moveY, player_speed, windowheight]; split_ifs <;> omega)

/-- Closed form of the difficulty state after `n` escalation fires. -/
theorem difficultyAfter_closed (n : Nat) :
    difficultyAfter n = (4 + n * (1 / 4 : ℚ), max 200 (1500 - 100 * n)) := by
  induction n with
  | zero => simp [difficultyAfter, difficultyIter]
  | succ n ih =>
    show difficultyStep (difficultyAfter n) = _
    rw [ih]
    refine Prod.ext ?_ ?_
    · show (4 + n * (1 / 4 : ℚ)) + 1 / 4 = 4 + (n + 1 : Nat) * (1 / 4 : ℚ)
      push_cast
      ring
    · show (if 200 < max 200 (1500 - 100 * n) then max 200 (1500 - 100 * n) - 100
            else max 200 (1500 - 100 * n)) = max 200 (1500 - 100 * (n + 1))
      split_ifs <;> omega

/-! ## Claim theorems -/

/-- Claim C5: over every run, the spawn interval is non-increasing across
escalation fires and never falls below 200 ms, and the meteoroid speed is
non-decreasing. -/
theorem C5_difficulty_monotone (n : Nat) :
    (difficultyAfter (n + 1)).2 ≤ (difficultyAfter n).2 ∧
    200 ≤ (difficultyAfter n).2 ∧
    (difficultyAfter n).1 ≤ (difficultyAfter (n + 1)).1 := by
  rw [difficultyAfter_closed n, difficultyAfter_closed (n + 1)]
  refine ⟨?_, ?_, ?_⟩
  · show max 200 (1500 - 100 * (n + 1)) ≤ max 200 (1500 - 100 * n)
    omega
  · omega
  · show 4 + (n : ℚ) * (1 / 4) ≤ 4 + ((n : Nat) + 1 : Nat) * (1 / 4 : ℚ)
    push_cast
    linarith

/-- Claim C6: starting from spawn interval 1500 ms and speed 4.0, each
escalation fire adds 0.25 to the speed and subtracts 100 ms from the
interval, so after three fires the interval is 1200 ms and the speed 4.75. -/
theorem C6_escalation_scenario :
    difficultyAfter 1 = (4.25, 1400) ∧ difficultyAfter 2 = (4.5, 1300) ∧
    difficultyAfter 3 = (4.75, 1200) := by
  refine ⟨?_, ?_, ?_⟩ <;>
    · rw [difficultyAfter_closed]
      refine Prod.ext (by push_cast; norm_num) (by omega)

/-- Counterexample to claim C8: with the shoot key held and exactly
500 ms elapsed since the last shot, the code spawns no bullet and leaves
the cooldown clock untouched, although the claim requires a spawn at
`≥ 500 ms`. -/
theorem C8_cex :
    500 ≤ 1500 - 1000 ∧ shootStep true 1500 1000 0 0 [] = (1000, []) := by
  decide

/-- Claim C8 (amended): with shoot held, a bullet is spawned and the
cooldown clock reset exactly when strictly more than 500 ms elapsed since
the last shot; otherwise (including at exactly 500 ms) the bullet list and
clock are unchanged. -/
theorem C8_cooldown (kSpace : Bool) (now prev : Nat) (px py : Int)
    (bs : List Bullet) :
    (kSpace = true → 500 < now - prev →
      shootStep kSpace now prev px py bs = (now, bs ++ [mkBullet px py])) ∧
    (¬ 500 < now - prev → shootStep kSpace now prev px py bs = (prev, bs)) ∧
    (kSpace = false → shootStep kSpace now prev px py bs = (prev, bs)) := by
  refine ⟨?_, ?_, ?_⟩
  · rintro rfl h
    simp [shootStep, h]
  · intro h
    cases kSpace <;> simp [shootStep, h]
  · rintro rfl
    simp [shootStep]

/-- Witness for C8: a shot 601 ms after the previous one spawns a bullet
and resets the clock; a shot exactly 500 ms after does nothing. -/
theorem C8_cooldown_witness :
    shootStep true 1601 1000 0 0 [] = (1601, [mkBullet 0 0]) ∧
    shootStep true 1500 1000 0 0 [] = (1000, []) :=
  ⟨(C8_cooldown true 1601 1000 0 0 []).1 rfl (by decide),
   (C8_cooldown true 1500 1000 0 0 []).2.1 (by decide)⟩

/-- Counterexample to claim C3: a player at `x = 0` who presses the left
input does move — the boundary test `x >= 0` passes, so the position
becomes `-3`, leaving the claimed range `[0, windowwidth - 50]`. -/
theorem C3_cex : moveX true false 0 = -3 ∧ moveX true false 0 < 0 := by
  decide

/-- Claim C3 (amended): each coordinate is only guaranteed to stay in the
overshoot range (`[-3, 1233]` for x, `[-3, 673]` for y) because the bound
is checked before the move; at `x = 0` a left press moves the player to
`-3` where it stays; a right press advances by `player_speed` while
`x ≤ windowwidth - 50` and stops at the first value beyond it, not exactly
at `windowwidth - 50`. -/
theorem C3_player_clamp (kA kD kW kS : Bool) (x y : Int) :
    (-3 ≤ x → -3 ≤ moveX kA kD x) ∧
    (x ≤ 1233 → moveX kA kD x ≤ 1233) ∧
    (-3 ≤ y → -3 ≤ moveY kW kS y) ∧
    (y ≤ 673 → moveY kW kS y ≤ 673) ∧
    moveX true false 0 = -3 ∧
    moveX true false (-3) = -3 ∧
    (x ≤ 1230 → moveX false true x = x + 3) ∧
    (1230 < x → moveX false true x = x) := by
  refine ⟨fun h => moveX_lb kA kD h, fun h => moveX_ub kA kD h,
    fun h => moveY_lb kW kS h, fun h => moveY_ub kW kS h,
    by decide, by decide, ?_, ?_⟩
  · intro h
    simp [moveX, player_speed, windowwidth]
    omega
  · intro h
    simp [moveX, player_speed, windowwidth]
    omega

/-- Witness for C3 (amended): the bounds hold at a concrete state and a
right press at `x = 100` advances to `103`. -/
theorem C3_player_clamp_witness :
    -3 ≤ moveX true false 0 ∧ moveX false true 100 = 100 + 3 :=
  ⟨(C3_player_clamp true false false false 0 0).1 (by decide),
   (C3_player_clamp true false false false 100 0).2.2.2.2.2.2.1 (by decide)⟩

/-- Counterexample to claim C4: holding left and up in the same frame
moves the player from `(100, 360)` to `(97, 357)` — both coordinates
change, i.e. combined diagonal movement of the position does occur. -/
theorem C4_cex :
    (stage1 (initState 0)
      ⟨[], 0, false, true, false, true, false, false, false, 0⟩).px = 97 ∧
    (stage1 (initState 0)
      ⟨[], 0, false, true, false, true, false, false, false, 0⟩).py = 357 ∧
    (initState 0).px = 100 ∧ (initState 0).py = 360 := by
  decide

/-- Claim C4 (amended): the four movement flags are resolved in the checked
order left, right, up, down with the last matched key winning, so at most
one flag is active per frame; but each pressed key applies its position
change independently, so holding two keys (e.g. left and up) does move the
player diagonally within a single frame. -/
theorem C4_flags (kA kD kW kS : Bool) :
    updateFlags kA kD kW kS =
      (if kS then ⟨false, false, false, true⟩
       else if kW then ⟨false, false, true, false⟩
       else if kD then ⟨false, true, false, false⟩
       else if kA then ⟨true, false, false, false⟩
       else ⟨false, false, false, false⟩ : MoveFlags) ∧
    ((updateFlags kA kD kW kS).left.toNat + (updateFlags kA kD kW kS).right.toNat +
      (updateFlags kA kD kW kS).up.toNat + (updateFlags kA kD kW kS).down.toNat ≤ 1) ∧
    (stage1 (initState 0)
      ⟨[], 0, false, true, false, true, false, false, false, 0⟩).px = 97 ∧
    (stage1 (initState 0)
      ⟨[], 0, false, true, false, true, false, false, false, 0⟩).py = 357 := by
  cases kA <;> cases kD <;> cases kW <;> cases kS <;> decide

/-- The bullets surviving `groupcollideMB` form a sublist of the input. -/
theorem groupcollideMB_bullets_sublist (ms : List Meteoroid) (bs : List Bullet) :
    ((groupcollideMB ms bs).2).Sublist bs := by
  induction ms generalizing bs with
  | nil => exact List.Sublist.refl bs
  | cons m ms ih =>
    exact ((ih (bs.filter (fun b => !collideRect m.rect b.rect)))).trans
      (List.filter_sublist bs)

/-- No bullet surviving `groupcollideMB` overlaps any input meteoroid. -/
theorem groupcollideMB_no_overlap (ms : List Meteoroid) (bs : List Bullet) :
    ∀ b ∈ (groupcollideMB ms bs).2, ∀ m ∈ ms, collideRect m.rect b.rect = false := by
  induction ms generalizing bs with
  | nil =>
    intro b _ m hm
    exact absurd hm (List.not_mem_nil m)
  | cons m0 ms ih =>
    intro b hb m hm
    have hb' : b ∈ (groupcollideMB ms
        (bs.filter (fun b => !collideRect m0.rect b.rect))).2 := hb
    rcases List.mem_cons.mp hm with rfl | hm'
    · have hmem := (groupcollideMB_bullets_sublist ms _).subset hb'
      have := (List.mem_filter.mp hmem).2
      simpa using this
    · exact ih _ b hb' m hm'

/-- The meteoroids recorded as hit by `groupcollideMB` form a sublist of
the alive collection, so each alive meteoroid is recorded at most once. -/
theorem groupcollideMB_hits_sublist (ms : List Meteoroid) (bs : List Bullet) :
    ((groupcollideMB ms bs).1).Sublist ms := by
  induction ms generalizing bs with
  | nil => exact List.Sublist.refl []
  | cons m ms ih =>
    show (if _ then _ else _ : List Meteoroid).Sublist (m :: ms)
    split
    · exact (ih _).cons m
    · exact (ih _).cons₂ m

/-- Membership survives the `foldl erase` used for hit removal only if it
held in the original list. -/
theorem mem_foldl_erase {α : Type} [DecidableEq α] :
    ∀ (hits ms : List α) (x : α), x ∈ List.foldl List.erase ms hits → x ∈ ms := by
  intro hits
  induction hits with
  | nil =>
    intro ms x h
    simpa using h
  | cons h t ih =>
    intro ms x hx
    exact List.mem_of_mem_erase (ih (ms.erase h) x hx)

/-- An element absent from the list stays absent through `foldl erase`. -/
theorem not_mem_foldl_erase_of_not_mem {α : Type} [DecidableEq α] :
    ∀ (hits ms : List α) (x : α), x ∉ ms → x ∉ List.foldl List.erase ms hits := by
  intro hits
  induction hits with
  | nil =>
    intro ms x h
    simpa using h
  | cons h t ih =>
    intro ms x hx
    exact ih (ms.erase h) x (fun hc => hx (List.mem_of_mem_erase hc))

/-- Erasing all hit elements from a duplicate-free list removes every hit
element. -/
theorem not_mem_foldl_erase {α : Type} [DecidableEq α] :
    ∀ (hits ms : List α) (x : α), ms.Nodup → x ∈ hits →
      x ∉ List.foldl List.erase ms hits := by
  intro hits
  induction hits with
  | nil =>
    intro ms x _ h
    exact absurd h (List.not_mem_nil x)
  | cons h t ih =>
    intro ms x hnd hx
    rcases List.mem_cons.mp hx with rfl | hx'
    · exact not_mem_foldl_erase_of_not_mem t (ms.erase x) x (hnd.not_mem_erase)
    · exact ih (ms.erase h) x (hnd.erase h) hx'

/-- `explodeM` is injective (it only shifts the state counter by one). -/
theorem explodeM_injective : Function.Injective explodeM := by
  intro a b h
  cases a
  cases b
  simp only [explodeM, Meteoroid.mk.injEq] at h
  obtain ⟨h1, h2, h3⟩ := h
  exact Meteoroid.mk.injEq .. ▸ by simp [h1, h2, Nat.succ_injective h3]

/-- Appending the exploded copies of the duplicate-free hit list adds each
hit meteoroid to the exploded collection exactly once. -/
theorem count_explode_append (ex hits : List Meteoroid) (m : Meteoroid)
    (hnd : hits.Nodup) (hm : m ∈ hits) :
    (ex ++ hits.map explodeM).count (explodeM m) = ex.count (explodeM m) + 1 := by
  rw [List.count_append, List.count_map_of_injective _ _ explodeM_injective,
    List.count_eq_one_of_mem hnd hm]

/-- Counterexample to claim C1: two overlapping meteoroids share the one
bullet that overlaps both. The first meteoroid in group order consumes the
bullet and explodes; the second is overlapped by a bullet at the start of
the frame (`bulletHits` is true) yet remains alive, does not transition,
and earns no bonus — the score rises by 100, not 200. -/
theorem C1_cex :
    bulletHits ⟨110, 100, 0⟩ [⟨120, 105⟩] = true ∧
    hitStep [⟨100, 100, 0⟩, ⟨110, 100, 0⟩] [⟨120, 105⟩] [] 0 =
      ([⟨110, 100, 0⟩], [], [⟨100, 100, 1⟩], 100) := by
  decide

/-- Claim C1 (amended): the hit resolution visits the alive meteoroids in
group order; every bullet overlapping any alive meteoroid is consumed
(none survives the pass), the score rises by exactly 100 per transitioned
meteoroid (not per bullet), each hit meteoroid is recorded at most once
(the hit list is a sublist of the alive list), and every recorded hit is
removed from the alive collection and added to the exploded collection
exactly once — but a meteoroid all of whose overlapping bullets were
already consumed by an earlier meteoroid is not hit and stays alive. -/
theorem C1_hit_resolution (ms : List Meteoroid) (bs : List Bullet)
    (ex : List Meteoroid) (score : Nat) (hnd : ms.Nodup) :
    (∀ b ∈ (hitStep ms bs ex score).2.1, ∀ m ∈ ms, collideRect m.rect b.rect = false) ∧
    (hitStep ms bs ex score).2.2.2 = score + 100 * (groupcollideMB ms bs).1.length ∧
    (hitStep ms bs ex score).2.2.1 = ex ++ ((groupcollideMB ms bs).1).map explodeM ∧
    ((groupcollideMB ms bs).1).Sublist ms ∧
    (∀ m ∈ (groupcollideMB ms bs).1,
      m ∉ (hitStep ms bs ex score).1 ∧
      ((hitStep ms bs ex score).2.2.1).count (explodeM m) =
        ex.count (explodeM m) + 1) := by
  refine ⟨groupcollideMB_no_overlap ms bs, rfl, rfl,
    groupcollideMB_hits_sublist ms bs, ?_⟩
  intro m hm
  exact ⟨not_mem_foldl_erase _ ms m hnd hm,
    count_explode_append ex _ m ((groupcollideMB_hits_sublist ms bs).nodup hnd) hm⟩

/-- Witness for C1 (amended): a single meteoroid hit by a single bullet is
removed from the alive collection and the score bonus is exactly 100. -/
theorem C1_hit_resolution_witness :
    (⟨100, 100, 0⟩ : Meteoroid) ∉
      (hitStep [⟨100, 100, 0⟩] [⟨120, 105⟩] [] 0).1 ∧
    (hitStep [⟨100, 100, 0⟩] [⟨120, 105⟩] [] 0).2.2.2 = 0 + 100 * 1 := by
  have h := C1_hit_resolution [⟨100, 100, 0⟩] [⟨120, 105⟩] [] 0 (by decide)
  exact ⟨(h.2.2.2.2 ⟨100, 100, 0⟩ (by decide)).1, by simpa using h.2.1⟩

/-- A continuing frame is exactly `stage2` after `stage1`. -/
theorem frameStep_cont {nf : Nat} {g : GState} {inp : FrameInput} {g' : GState}
    (h : frameStep nf g inp = .cont g') : g' = stage2 nf (stage1 g inp) := by
  by_cases hq : inp.quitEvent
  · simp [frameStep, hq] at h
  · by_cases he : inp.keyEsc
    · simp [frameStep, hq, he] at h
    · by_cases hp : playerHit (stage1 g inp)
      · simp [frameStep, hq, he, hp] at h
      · simp [frameStep, hq, he, hp] at h
        exact h.symm

/-- A game-over frame hands over exactly the incremented score. -/
theorem frameStep_gameover {nf : Nat} {g : GState} {inp : FrameInput} {s : Nat}
    (h : frameStep nf g inp = .gameover s) : s = g.score + 1 := by
  have hsc : (stage1 g inp).score = g.score + 1 := rfl
  by_cases hq : inp.quitEvent
  · simp [frameStep, hq] at h
  · by_cases he : inp.keyEsc
    · simp [frameStep, hq, he] at h
      omega
    · by_cases hp : playerHit (stage1 g inp)
      · simp [frameStep, hq, he, hp] at h
        omega
      · simp [frameStep, hq, he, hp] at h

/-- Every member of `stage1`'s alive list is an old alive meteoroid or a
fresh spawn. -/
theorem stage1_alive_mem {g : GState} {inp : FrameInput} {m : Meteoroid}
    (hm : m ∈ (stage1 g inp).alive) :
    m ∈ g.alive ∨ ∃ y, m = Meteoroid.spawnAt y := by
  have hm' : m ∈ g.alive ++ inp.spawnYs.map Meteoroid.spawnAt := hm
  rcases List.mem_append.mp hm' with h | h
  · exact Or.inl h
  · rcases List.mem_map.mp h with ⟨y, _, rfl⟩
    exact Or.inr ⟨y, rfl⟩

/-- Every member of an updated meteoroid group is the update of a member
of the input group. -/
theorem mem_meteoroidGroupUpdate {nf : Nat} {s : ℚ} {ms : List Meteoroid}
    {m' : Meteoroid} (h : m' ∈ meteoroidGroupUpdate nf s ms) :
    ∃ m0 ∈ ms, m' = Meteoroid.updateOne s m0 := by
  rcases List.mem_map.mp h with ⟨m0, hm0, rfl⟩
  exact ⟨m0, (List.mem_filter.mp hm0).1, rfl⟩

/-- `Meteoroid.update` leaves an alive meteoroid's state at 0. -/
theorem updateOne_state_zero {s : ℚ} {m : Meteoroid} (h : m.state = 0) :
    (Meteoroid.updateOne s m).state = 0 := by
  simp [Meteoroid.updateOne, h]

/-- `Meteoroid.update` keeps an exploding meteoroid's state positive. -/
theorem updateOne_state_pos {s : ℚ} {m : Meteoroid} (h : 1 ≤ m.state) :
    1 ≤ (Meteoroid.updateOne s m).state := by
  show 1 ≤ (if 0 < m.state then m.state + 1 else m.state)
  split <;> omega

/-- Every member of `stage2`'s alive list is the update of a member of the
incoming alive list. -/
theorem stage2_alive_mem {nf : Nat} {g1 : GState} {m' : Meteoroid}
    (hm' : m' ∈ (stage2 nf g1).alive) :
    ∃ m0 ∈ g1.alive, m' = Meteoroid.updateOne g1.meteoroid_speed m0 := by
  simp only [stage2] at hm'
  rcases mem_meteoroidGroupUpdate hm' with ⟨m0, hm0, rfl⟩
  exact ⟨m0, mem_foldl_erase _ _ _ (List.mem_filter.mp hm0).1, rfl⟩

/-- Every member of `stage2`'s exploded list is the update of an old
exploded meteoroid or of a freshly exploded hit. -/
theorem stage2_exploded_mem {nf : Nat} {g1 : GState} {m' : Meteoroid}
    (hm' : m' ∈ (stage2 nf g1).exploded) :
    ∃ m0, (m0 ∈ g1.exploded ∨ ∃ m1, m0 = explodeM m1) ∧
      m' = Meteoroid.updateOne g1.meteoroid_speed m0 := by
  simp only [stage2] at hm'
  rcases mem_meteoroidGroupUpdate hm' with ⟨m0, hm0, rfl⟩
  have hm0' : m0 ∈ g1.exploded ++
      ((groupcollideMB g1.alive g1.bullets).1).map explodeM := hm0
  rcases List.mem_append.mp hm0' with h | h
  · exact ⟨m0, Or.inl h, rfl⟩
  · rcases List.mem_map.mp h with ⟨m1, _, rfl⟩
    exact ⟨explodeM m1, Or.inr ⟨m1, rfl⟩, rfl⟩

/-- The collection invariant is preserved by every continuing frame. -/
theorem frameStep_stateInv {nf : Nat} {g : GState} {inp : FrameInput}
    {g' : GState} (hInv : stateInv g) (h : frameStep nf g inp = .cont g') :
    stateInv g' := by
  rw [frameStep_cont h]
  constructor
  · intro m' hm'
    rcases stage2_alive_mem hm' with ⟨m0, hm0, rfl⟩
    rcases stage1_alive_mem hm0 with h1 | ⟨y, rfl⟩
    · exact updateOne_state_zero (hInv.1 m0 h1)
    · exact updateOne_state_zero rfl
  · intro m' hm'
    rcases stage2_exploded_mem hm' with ⟨m0, hm0, rfl⟩
    apply updateOne_state_pos
    rcases hm0 with h1 | ⟨m1, rfl⟩
    · exact hInv.2 m0 h1
    · show 1 ≤ m1.state + 1
      omega

/-- The overshoot position bounds are preserved by every continuing frame. -/
theorem frameStep_posInv {nf : Nat} {g : GState} {inp : FrameInput}
    {g' : GState} (hp : posInv g) (h : frameStep nf g inp = .cont g') :
    posInv g' := by
  rw [frameStep_cont h]
  obtain ⟨h1, h2, h3, h4⟩ := hp
  exact ⟨moveX_lb _ _ h1, moveX_ub _ _ h2, moveY_lb _ _ h3, moveY_ub _ _ h4⟩

/-- Claim C2: an exploding meteoroid's frame index increases by exactly 1
on each `update` tick; on the singleton group its fate is removal exactly
when the index has reached the final defined frame (`state + 1 = nf`);
and a meteoroid with positive state is never in the alive collection of
any reachable successor state, i.e. it never returns to alive. -/
theorem C2_explosion_lifecycle (nf : Nat) (speed : ℚ) (ms : List Meteoroid)
    (m : Meteoroid) (hm : m ∈ ms) (hs : 1 ≤ m.state)
    (g : GState) (inp : FrameInput) (g' : GState)
    (hInv : stateInv g) (hstep : frameStep nf g inp = .cont g') :
    (m.state + 1 ≠ nf →
      (⟨pyInt ((m.x : ℚ) - speed), m.y, m.state + 1⟩ : Meteoroid) ∈
        meteoroidGroupUpdate nf speed ms) ∧
    meteoroidGroupUpdate nf speed [m] =
      (if m.state + 1 = nf then []
       else [(⟨pyInt ((m.x : ℚ) - speed), m.y, m.state + 1⟩ : Meteoroid)]) ∧
    m ∉ g'.alive := by
  have hone : Meteoroid.updateOne speed m =
      (⟨pyInt ((m.x : ℚ) - speed), m.y, m.state + 1⟩ : Meteoroid) := by
    cases m with
    | mk x y st =>
      have hs' : 1 ≤ st := hs
      show Meteoroid.mk (pyInt ((x : ℚ) - speed)) y
          (if 0 < st then st + 1 else st) =
        Meteoroid.mk (pyInt ((x : ℚ) - speed)) y (st + 1)
      rw [if_pos (by omega : 0 < st)]
  refine ⟨?_, ?_, ?_⟩
  · intro hne
    rw [← hone]
    exact List.mem_map.mpr ⟨m, List.mem_filter.mpr ⟨hm, by simpa using hne⟩, rfl⟩
  · by_cases hnf : m.state + 1 = nf
    · simp [meteoroidGroupUpdate, hnf]
    · simp [meteoroidGroupUpdate, hnf, hone]
  · intro hmem
    have h' := frameStep_stateInv hInv hstep
    have := h'.1 m hmem
    omega

/-- Witness for C2: a meteoroid at `(500, 100)` with state 1 survives an
update tick of a 3-frame animation with state 2 and position moved by the
speed 4. -/
theorem C2_explosion_lifecycle_witness :
    (⟨pyInt (((500 : Int) : ℚ) - 4), 100, 2⟩ : Meteoroid) ∈
      meteoroidGroupUpdate 3 4 [⟨500, 100, 1⟩] :=
  (C2_explosion_lifecycle 3 4 [⟨500, 100, 1⟩] ⟨500, 100, 1⟩ (by decide) (by decide)
    (initState 0) ⟨[], 0, false, false, false, false, false, false, false, 0⟩
    { score := 1, px := 100, py := 360, prevTime := 0, meteoroid_speed := 4,
      meteoroid_timer := 1500, alive := [], exploded := [], bullets := [] }
    ⟨fun m hm => absurd hm (List.not_mem_nil m),
     fun m hm => absurd hm (List.not_mem_nil m)⟩ rfl).1 (by decide)

/-- Claim C7: across one frame the score grows by exactly 1 (survival
point) plus 100 per meteoroid hit that frame, and a frame ending in game
over hands over exactly the incremented score; the score never decreases. -/
theorem C7_score_monotone (nf : Nat) (g : GState) (inp : FrameInput)
    (g' : GState) (s : Nat) :
    (frameStep nf g inp = .cont g' →
      g'.score = g.score + 1 + 100 * frameHits g inp ∧ g.score < g'.score) ∧
    (frameStep nf g inp = .gameover s → s = g.score + 1 ∧ g.score < s) := by
  constructor
  · intro h
    rw [frameStep_cont h]
    have hsc : (stage2 nf (stage1 g inp)).score =
        g.score + 1 + 100 * frameHits g inp := rfl
    exact ⟨hsc, by omega⟩
  · intro h
    have hs := frameStep_gameover h
    exact ⟨hs, by omega⟩

/-- Witness for C7: an empty quiet frame raises the score from 0 to 1. -/
theorem C7_score_monotone_witness :
    (initState 0).score <
      ({ score := 1, px := 100, py := 360, prevTime := 0, meteoroid_speed := 4,
         meteoroid_timer := 1500, alive := [], exploded := [],
         bullets := [] } : GState).score :=
  ((C7_score_monotone 2 (initState 0)
    ⟨[], 0, false, false, false, false, false, false, false, 0⟩
    { score := 1, px := 100, py := 360, prevTime := 0, meteoroid_speed := 4,
      meteoroid_timer := 1500, alive := [], exploded := [], bullets := [] }
    0).1 rfl).2

/-- Claim C9: initially and after every continuing frame, all alive
meteoroids have `explosion_state = 0`, all exploding meteoroids have
`explosion_state ≥ 1`, and the two collections are disjoint. -/
theorem C9_collections (t0 : Nat) (nf : Nat) (g : GState) (inp : FrameInput)
    (g' : GState) (hInv : stateInv g) (hstep : frameStep nf g inp = .cont g') :
    stateInv (initState t0) ∧ stateInv g' ∧ ∀ m ∈ g'.alive, m ∉ g'.exploded := by
  have h' := frameStep_stateInv hInv hstep
  refine ⟨⟨?_, ?_⟩, h', ?_⟩
  · intro m hm
    exact absurd hm (List.not_mem_nil m)
  · intro m hm
    exact absurd hm (List.not_mem_nil m)
  · intro m hm hmem
    have e0 := h'.1 m hm
    have e1 := h'.2 m hmem
    omega

/-- Witness for C9: the invariant holds at the initial state, via a quiet
first frame. -/
theorem C9_collections_witness : stateInv (initState 7) :=
  (C9_collections 7 2 (initState 0)
    ⟨[], 0, false, false, false, false, false, false, false, 0⟩
    { score := 1, px := 100, py := 360, prevTime := 0, meteoroid_speed := 4,
      meteoroid_timer := 1500, alive := [], exploded := [], bullets := [] }
    ⟨fun m hm => absurd hm (List.not_mem_nil m),
     fun m hm => absurd hm (List.not_mem_nil m)⟩ rfl).1

/-- Claim C10: the position bounds that actually hold are the overshoot
bounds `[-3, windowwidth-50+3] × [-3, windowheight-50+3]`: they hold
initially, are preserved by every continuing frame, and each bound is
attained but never exceeded by more than one `player_speed` step. -/
theorem C10_position_overshoot (t0 : Nat) (nf : Nat) (g : GState)
    (inp : FrameInput) (g' : GState) (hp : posInv g)
    (hstep : frameStep nf g inp = .cont g') :
    posInv (initState t0) ∧ posInv g' ∧
    moveX true false 0 = -3 ∧ moveX true false (-3) = -3 ∧
    moveX false true 1230 = 1233 ∧ moveX false true 1233 = 1233 :=
  ⟨⟨by norm_num [initState], by norm_num [initState], by norm_num [initState],
      by norm_num [initState]⟩, frameStep_posInv hp hstep,
    by decide, by decide, by decide, by decide⟩

/-- Witness for C10: the overshoot bounds hold at the initial state, via a
quiet first frame. -/
theorem C10_position_overshoot_witness : posInv (initState 3) :=
  (C10_position_overshoot 3 2 (initState 0)
    ⟨[], 0, false, false, false, false, false, false, false, 0⟩
    { score := 1, px := 100, py := 360, prevTime := 0, meteoroid_speed := 4,
      meteoroid_timer := 1500, alive := [], exploded := [], bullets := [] }
    ⟨by decide, by decide, by decide, by decide⟩ rfl).1
